import Mathlib

/-!
Verification development for the e_websearch agent orchestration engine.

Shallow embedding of the Python sources under src/core/agent/:
  models.py    — ExecutionStatus, StepType, PlanningStrategy, ExecutionStep,
                 ExecutionPlan, ExecutionState, AgentSearchRequest
  executor.py  — StateManager, ConditionEvaluator, ExecutionEngine, LoopExecutor
  planner.py   — TaskDecomposer, SearchPlanner
  tools.py     — DataProcessingTools

Modelling conventions:
  * Python floats are modelled as rationals (ℚ); wall-clock instants are passed
    explicitly (the Python code calls time.time()).
  * The external search orchestrator and LLM enhancer are out-of-scope
    collaborators; their outcomes are supplied per step through an environment
    record, with an exception modelled as Except.error.
  * Bookkeeping timestamp fields that no embedded computation reads
    (end_time, total_execution_time of the state) are omitted; start_time and
    step execution_time are kept because the timeout check and the step
    confidence formula read them.
  * asyncio runs each coroutine segment between awaits atomically on one event
    loop, so concurrent mutation (cancel_search) is modelled as interleaving at
    await points only, supplied through the environment.
-/

namespace EWebSearch

/-- models.py ExecutionStatus enum. -/
inductive ExecutionStatus
  | pending
  | running
  | completed
  | failed
  | cancelled
  deriving DecidableEq

/-- Terminal statuses: completed, failed, cancelled. -/
def ExecutionStatus.isTerminal : ExecutionStatus → Bool
  | .completed => true
  | .failed => true
  | .cancelled => true
  | _ => false

/-- models.py StepType enum. -/
inductive StepType
  | search
  | analyze
  | refine
  | summarize
  | validate
  deriving DecidableEq

/-- models.py PlanningStrategy enum. -/
inductive PlanningStrategy
  | simple
  | iterative
  | parallel
  | adaptive
  deriving DecidableEq

/-- core/models.py SearchResult, restricted to the fields the agent code reads
(title, url, snippet, score, content, publish_time). -/
structure SearchResult where
  title : String
  url : String
  snippet : String
  score : ℚ
  content : Option String := none
  publish_time : Option String := none
  deriving DecidableEq

/-- models.py AgentSearchRequest, restricted to the fields the embedded code
reads; the LLM pass-through flags only parameterize the external collaborator
call and are omitted. -/
structure AgentSearchRequest where
  query : String
  max_iterations : Int := 3
  max_results_per_iteration : Nat := 10
  total_max_results : Nat := 50
  sources : List String := ["zai"]
  enable_refinement : Bool := true
  confidence_threshold : ℚ := 7/10
  timeout : Int := 300
  deriving DecidableEq

/-- models.py ExecutionStep (start_time/end_time omitted; execution_time kept
because the step-confidence formula reads it). -/
structure ExecutionStep where
  step_id : String
  step_type : StepType
  description : String
  query : String
  sources : List String
  max_results : Nat
  status : ExecutionStatus := .pending
  execution_time : Option ℚ := none
  results : List SearchResult := []
  summary : Option String := none
  tags : List String := []
  confidence_score : ℚ := 0
  error : Option String := none
  deriving DecidableEq

/-- models.py ExecutionPlan (created_at/estimated_time omitted). -/
structure ExecutionPlan where
  plan_id : String
  original_query : String
  strategy : PlanningStrategy
  steps : List ExecutionStep
  confidence_score : ℚ := 0
  current_step_index : Nat := 0
  deriving DecidableEq

/-- models.py ExecutionState (end_time/total_execution_time, trace_data and
performance_data omitted: nothing embedded reads them). -/
structure ExecutionState where
  session_id : String
  request : AgentSearchRequest
  plan : ExecutionPlan
  status : ExecutionStatus := .pending
  start_time : ℚ := 0
  all_results : List SearchResult := []
  final_summary : Option String := none
  final_tags : List String := []
  total_searches : Nat := 0
  total_results_found : Nat := 0
  cache_hits : Nat := 0
  errors : List String := []
  deriving DecidableEq

/-- models.py ExecutionState.add_error. -/
def ExecutionState.add_error (state : ExecutionState) (e : String) : ExecutionState :=
  { state with errors := state.errors ++ [e] }

/-- models.py ExecutionState.complete: sets status COMPLETED and overwrites
final_summary / final_tags only when the arguments are truthy. -/
def ExecutionState.completeWith (state : ExecutionState)
    (final_summary : Option String) (final_tags : List String) : ExecutionState :=
  let state := { state with status := ExecutionStatus.completed }
  let state :=
    match final_summary with
    | some s => if s = "" then state else { state with final_summary := some s }
    | none => state
  if final_tags = [] then state else { state with final_tags := final_tags }

/-- models.py ExecutionState.fail: sets status FAILED and appends the error. -/
def ExecutionState.failWith (state : ExecutionState) (e : String) : ExecutionState :=
  { state with status := ExecutionStatus.failed, errors := state.errors ++ [e] }

/-! ### Condition evaluator (executor.py, ConditionEvaluator) -/

/-- executor.py ConditionEvaluator._is_timeout; the current wall-clock instant
(Python time.time()) is passed explicitly. -/
def is_timeout (now : ℚ) (state : ExecutionState) : Bool :=
  if state.request.timeout ≤ 0 then false
  else decide ((state.request.timeout : ℚ) < now - state.start_time)

/-- executor.py ConditionEvaluator._reached_max_iterations. -/
def reached_max_iterations (state : ExecutionState) : Bool :=
  decide (state.request.max_iterations ≤
    ((state.plan.steps.filter (fun s => s.status == ExecutionStatus.completed)).length : Int))

/-- executor.py ConditionEvaluator._has_sufficient_results. -/
def has_sufficient_results (state : ExecutionState) : Bool :=
  decide (state.request.total_max_results ≤ state.all_results.length)

/-- Python steps[-3:]: the last three elements (or all of them when fewer). -/
def lastThree (steps : List ExecutionStep) : List ExecutionStep :=
  steps.drop (steps.length - 3)

/-- executor.py ConditionEvaluator._has_critical_errors: at least 2 of the last
3 plan steps are FAILED. -/
def has_critical_errors (state : ExecutionState) : Bool :=
  decide (2 ≤ ((lastThree state.plan.steps).filter
    (fun s => s.status == ExecutionStatus.failed)).length)

/-- executor.py ConditionEvaluator.should_continue_execution. -/
def should_continue_execution (now : ℚ) (state : ExecutionState) : Bool × String :=
  if is_timeout now state then (false, "执行超时")
  else if reached_max_iterations state then (false, "达到最大迭代次数")
  else if has_sufficient_results state then (false, "已获得足够的结果")
  else if has_critical_errors state then (false, "遇到严重错误")
  else (true, "继续执行")

/-- Python truthy-or for step.error in evaluate_step_success
(None and the empty string both fall back to the default). -/
def orDefault (o : Option String) (d : String) : String :=
  match o with
  | some s => if s = "" then d else s
  | none => d

/-- The success score computed inside evaluate_step_success: min(count/5, 1),
averaged with the confidence score of the step when that is positive. -/
def success_score (step : ExecutionStep) : ℚ :=
  let s : ℚ := min ((step.results.length : ℚ) / 5) 1
  if 0 < step.confidence_score then (s + step.confidence_score) / 2 else s

/-- executor.py ConditionEvaluator.evaluate_step_success. -/
def evaluate_step_success (step : ExecutionStep) : Bool × ℚ × String :=
  if step.status == ExecutionStatus.failed then
    (false, 0, orDefault step.error "步骤执行失败")
  else if step.status != ExecutionStatus.completed then
    (false, 0, "步骤未完成")
  else if step.results.length == 0 then
    (false, 0, "未找到任何结果")
  else if (7 : ℚ)/10 ≤ success_score step then (true, success_score step, "步骤执行成功")
  else if (2 : ℚ)/5 ≤ success_score step then (true, success_score step, "步骤部分成功")
  else (false, success_score step, "步骤执行效果不佳")

/-! ### Data processing tools (tools.py, DataProcessingTools) -/

/-- Loop body of tools.py DataProcessingTools._deduplicate_by_url: the Python
loop carries a seen-URL set and an output accumulator; the recursion carries
the seen set and produces the accumulator front-to-back. -/
def dedupGo (seen : List String) : List SearchResult → List SearchResult
  | [] => []
  | r :: rest =>
    if r.url ∈ seen then dedupGo seen rest
    else r :: dedupGo (r.url :: seen) rest

/-- tools.py DataProcessingTools._deduplicate_by_url. -/
def deduplicate_by_url (results : List SearchResult) : List SearchResult :=
  dedupGo [] results

/-! ### Planner (planner.py, TaskDecomposer and SearchPlanner) -/

/-- The normalized basic-analyzer result as produced by
TaskDecomposer._normalize_analysis_result for the dict-based QueryAnalyzer
(the default rule_based analyzer): only the fields the decomposer and the
planner read. -/
structure BasicAnalysis where
  requires_multiple_searches : Bool
  query_type : String := "general"
  complexity : String := "simple"
  intent : String := "information_seeking"
  suggested_refinements : List String := []
  deriving DecidableEq

/-- planner.py TaskDecomposer._create_simple_search_step; fresh uuid-based step
ids are supplied by the caller. -/
def create_simple_search_step (req : AgentSearchRequest) (stepId : String) : ExecutionStep :=
  { step_id := stepId
    step_type := StepType.search
    description := "搜索: " ++ req.query
    query := req.query
    sources := req.sources
    max_results := req.max_results_per_iteration }

/-- planner.py TaskDecomposer._create_comparison_steps. -/
def create_comparison_steps (req : AgentSearchRequest) (ids : Nat → String) :
    List ExecutionStep :=
  [ { step_id := ids 0
      step_type := StepType.search
      description := "基础搜索: " ++ req.query
      query := req.query
      sources := req.sources
      max_results := req.max_results_per_iteration }
  , { step_id := ids 1
      step_type := StepType.search
      description := "深入对比: " ++ req.query ++ " 详细对比"
      query := req.query ++ " 详细对比 优缺点"
      sources := req.sources
      max_results := req.max_results_per_iteration }
  , { step_id := ids 2
      step_type := StepType.analyze
      description := "分析对比结果"
      query := req.query
      sources := []
      max_results := 0 } ]

/-- planner.py TaskDecomposer._create_deep_dive_steps. -/
def create_deep_dive_steps (req : AgentSearchRequest) (ids : Nat → String) :
    List ExecutionStep :=
  [ { step_id := ids 0
      step_type := StepType.search
      description := "概览搜索: " ++ req.query
      query := req.query
      sources := req.sources
      max_results := req.max_results_per_iteration }
  , { step_id := ids 1
      step_type := StepType.search
      description := "详细信息: " ++ req.query ++ " 详细介绍"
      query := req.query ++ " 详细介绍 深入分析"
      sources := req.sources
      max_results := req.max_results_per_iteration }
  , { step_id := ids 2
      step_type := StepType.search
      description := "相关应用: " ++ req.query ++ " 应用案例"
      query := req.query ++ " 应用案例 实际使用"
      sources := req.sources
      max_results := req.max_results_per_iteration } ]

/-- planner.py TaskDecomposer._create_tutorial_steps. -/
def create_tutorial_steps (req : AgentSearchRequest) (ids : Nat → String) :
    List ExecutionStep :=
  [ { step_id := ids 0
      step_type := StepType.search
      description := "基础教程: " ++ req.query
      query := req.query
      sources := req.sources
      max_results := req.max_results_per_iteration }
  , { step_id := ids 1
      step_type := StepType.search
      description := "详细步骤: " ++ req.query ++ " 详细步骤"
      query := req.query ++ " 详细步骤 具体方法"
      sources := req.sources
      max_results := req.max_results_per_iteration }
  , { step_id := ids 2
      step_type := StepType.search
      description := "注意事项: " ++ req.query ++ " 注意事项"
      query := req.query ++ " 注意事项 常见问题"
      sources := req.sources
      max_results := req.max_results_per_iteration } ]

/-- planner.py TaskDecomposer._create_general_multi_steps. -/
def create_general_multi_steps (req : AgentSearchRequest) (a : BasicAnalysis)
    (ids : Nat → String) : List ExecutionStep :=
  let primary : ExecutionStep :=
    { step_id := ids 0
      step_type := StepType.search
      description := "主要搜索: " ++ req.query
      query := req.query
      sources := req.sources
      max_results := req.max_results_per_iteration }
  match a.suggested_refinements with
  | [] => [primary]
  | r :: _ =>
    [ primary
    , { step_id := ids 1
        step_type := StepType.search
        description := "补充搜索: " ++ r
        query := r
        sources := req.sources
        max_results := req.max_results_per_iteration } ]

/-- planner.py TaskDecomposer._create_multi_step_plan: dispatch on the
normalized query_type string. -/
def create_multi_step_plan (req : AgentSearchRequest) (a : BasicAnalysis)
    (ids : Nat → String) : List ExecutionStep :=
  if a.query_type = "comparison" then create_comparison_steps req ids
  else if a.query_type = "deep_dive" then create_deep_dive_steps req ids
  else if a.query_type = "tutorial" then create_tutorial_steps req ids
  else create_general_multi_steps req a ids

/-- planner.py TaskDecomposer.decompose_task. use_dynamic_generation defaults
to True in the source, but the dynamic generator is commented out
(dynamic_generator = None, TODO) and both dynamic branches are a bare pass, so
with the flag on the step list stays empty and the final emptiness fallback
appends a single simple search step. -/
def decompose_task (use_dynamic_generation : Bool) (req : AgentSearchRequest)
    (a : BasicAnalysis) (ids : Nat → String) : List ExecutionStep :=
  let steps : List ExecutionStep :=
    if !a.requires_multiple_searches then
      if use_dynamic_generation then []
      else [create_simple_search_step req (ids 0)]
    else
      if use_dynamic_generation then []
      else create_multi_step_plan req a ids
  if steps.isEmpty then [create_simple_search_step req (ids 0)] else steps

/-- planner.py SearchPlanner._validate_plan, as an Except: raising becomes an
error value. -/
def validate_plan (steps : List ExecutionStep) : Except String Unit :=
  if steps.isEmpty then Except.error "执行计划不能为空"
  else if ¬ (steps.map (fun s => s.step_id)).Nodup then Except.error "执行步骤ID必须唯一"
  else if steps.any (fun s => s.query = "" && s.step_type == StepType.search) then
    Except.error "搜索步骤缺少查询内容"
  else Except.ok ()

/-- planner.py SearchPlanner._calculate_plan_confidence for the dict-based
(basic) analyzer, which carries no confidence_scores attribute. -/
def calculate_plan_confidence (analyzer_type : String) (a : BasicAnalysis)
    (steps : List ExecutionStep) : ℚ :=
  let base : ℚ :=
    if analyzer_type = "advanced" then 4/5
    else if analyzer_type = "bert" ∨ analyzer_type = "llm" then 3/4
    else 7/10
  let base :=
    if a.complexity = "simple" then base + 3/20
    else if a.complexity = "medium" then base + 1/20
    else if a.complexity = "complex" then base - 1/10
    else base
  let n := steps.length
  let base :=
    if n = 1 then base + 1/10
    else if n = 2 then base + 1/20
    else if 4 < n then base - 3/20
    else base
  let base :=
    if 1 < (steps.map (fun s => s.step_type)).dedup.length then base + 1/20 else base
  min (max base 0) 1

/-- planner.py SearchPlanner._create_fallback_plan (fresh uuid ids supplied by
the caller). -/
def create_fallback_plan (req : AgentSearchRequest) (planId stepId : String) :
    ExecutionPlan :=
  { plan_id := planId
    original_query := req.query
    strategy := PlanningStrategy.simple
    steps := [ { step_id := stepId
                 step_type := StepType.search
                 description := "简单搜索: " ++ req.query
                 query := req.query
                 sources := req.sources
                 max_results := req.max_results_per_iteration } ]
    confidence_score := 1/2 }

/-- The sub-stage pipeline inside planner.py SearchPlanner.create_execution_plan:
analysis (the result of _safe_analyze_query, which may itself still raise when
even the fallback basic analyzer raises), strategy generation, task
decomposition and validation, sequenced so that the first exception aborts the
pipeline.  Each stage of the running system is an awaited call whose exception
propagates to the enclosing try, modelled as an Except value. -/
def planner_pipeline (analysis : Except String BasicAnalysis)
    (genStrategy : BasicAnalysis → Except String PlanningStrategy)
    (decompose : BasicAnalysis → Except String (List ExecutionStep)) :
    Except String (BasicAnalysis × PlanningStrategy × List ExecutionStep) := do
  let a ← analysis
  let strat ← genStrategy a
  let steps ← decompose a
  let _ ← validate_plan steps
  pure (a, strat, steps)

/-- planner.py SearchPlanner.create_execution_plan: run the pipeline, catch any
exception and fall back to _create_fallback_plan.  analyzer_type is rule_based
by default in SearchPlanner.__init__. -/
def create_execution_plan (analyzer_type : String) (req : AgentSearchRequest)
    (analysis : Except String BasicAnalysis)
    (genStrategy : BasicAnalysis → Except String PlanningStrategy)
    (decompose : BasicAnalysis → Except String (List ExecutionStep))
    (planId fallbackPlanId fallbackStepId : String) : ExecutionPlan :=
  match planner_pipeline analysis genStrategy decompose with
  | Except.ok (a, strat, steps) =>
    { plan_id := planId
      original_query := req.query
      strategy := strat
      steps := steps
      confidence_score := calculate_plan_confidence analyzer_type a steps }
  | Except.error _ => create_fallback_plan req fallbackPlanId fallbackStepId

/-! ### Execution engine (executor.py, ExecutionEngine) -/

/-- The fields of core SearchResponse that _execute_search_step reads. -/
structure BackendResponse where
  results : List SearchResult
  llm_summary : Option String := none
  llm_tags : Option (List String) := none
  cache_hit : Bool := false
  deriving DecidableEq

/-- Per-step environment: outcomes of the external collaborators and of the
wall clock for one loop iteration, plus whether SearchAgent.cancel_search is
interleaved at the await point of this step (asyncio interleaves other
coroutines only while this step awaits its backend call). -/
structure StepEnv where
  now : ℚ := 0
  backend : Except String BackendResponse := Except.ok { results := [] }
  llm : Option (Except String (Option String × List String)) := none
  refinedQuery : String := ""
  execTime : ℚ := 1
  cancelDuring : Bool := false

/-- executor.py ExecutionEngine._calculate_step_confidence.  It is invoked
before ExecutionStep.complete, so on a first execution step.execution_time is
still None and the duration bonus cannot apply; the Python truthiness test
(`step.execution_time and ...`) also skips a zero duration. -/
def calculate_step_confidence (step : ExecutionStep) : ℚ :=
  let base : ℚ := 1/2
  let base :=
    if 0 < step.results.length then base + min ((step.results.length : ℚ) / 10) (3/10)
    else base
  let base :=
    match step.execution_time with
    | some t => if t ≠ 0 ∧ t < 2 then base + 1/10 else base
    | none => base
  let base :=
    match step.step_type with
    | StepType.search => base + 1/10
    | StepType.analyze => base + 1/5
    | _ => base
  min (max base 0) 1

/-- Python str.split() on the texts the agent handles: whitespace-separated
words with empties dropped. -/
def pyWords (s : String) : List String :=
  (s.splitOn " ").filter (fun w => w ≠ "")

/-- executor.py ExecutionEngine._calculate_relevance: distinct query words
found among the words of title+snippet, over distinct query words. -/
def calculate_relevance (r : SearchResult) (query : String) : ℚ :=
  let qw := (pyWords query.toLower).dedup
  let rw := (pyWords (r.title ++ " " ++ r.snippet).toLower).dedup
  if qw.length = 0 then 0
  else ((qw.filter (fun w => w ∈ rw)).length : ℚ) / qw.length

/-- executor.py ExecutionEngine._execute_search_step: backend call, result and
counter updates; an exception from the orchestrator propagates (Except.error). -/
def run_search_body (env : StepEnv) (step : ExecutionStep) (state : ExecutionState) :
    Except String (ExecutionStep × ExecutionState) :=
  match env.backend with
  | Except.error e => Except.error e
  | Except.ok resp =>
    let step := { step with
      results := resp.results
      summary := resp.llm_summary
      tags := resp.llm_tags.getD [] }
    let state := { state with
      all_results := state.all_results ++ resp.results
      total_results_found := state.total_results_found + resp.results.length
      total_searches := state.total_searches + 1
      cache_hits := state.cache_hits + (if resp.cache_hit then 1 else 0) }
    Except.ok (step, state)

/-- executor.py ExecutionEngine._execute_analyze_step: catches LLM failures
itself; env.llm is none when the enhancer is unavailable. -/
def run_analyze_body (env : StepEnv) (step : ExecutionStep) (state : ExecutionState) :
    ExecutionStep × ExecutionState :=
  if state.all_results.isEmpty then
    ({ step with results := [], summary := some "没有可分析的结果" }, state)
  else
    match env.llm with
    | none => ({ step with results := [] }, state)
    | some (Except.ok (s, t)) =>
      ({ step with summary := s, tags := t, results := [] }, state)
    | some (Except.error _) =>
      ({ step with summary := some "分析过程中遇到问题", tags := [], results := [] }, state)

/-- executor.py ExecutionEngine._execute_summarize_step. -/
def run_summarize_body (env : StepEnv) (step : ExecutionStep) (state : ExecutionState) :
    ExecutionStep × ExecutionState :=
  if state.all_results.isEmpty then
    ({ step with summary := some "没有可总结的结果", results := [] }, state)
  else
    match env.llm with
    | none => ({ step with results := [] }, state)
    | some (Except.ok (s, t)) =>
      ({ step with summary := s, tags := t, results := [] },
       { state with final_summary := s, final_tags := t })
    | some (Except.error _) =>
      ({ step with summary := some "总结生成过程中遇到问题", tags := [], results := [] }, state)

/-- executor.py ExecutionEngine._execute_validate_step. -/
def run_validate_body (step : ExecutionStep) (state : ExecutionState) :
    ExecutionStep × ExecutionState :=
  let validated := state.all_results.filter
    (fun r => decide (state.request.confidence_threshold ≤ calculate_relevance r state.request.query))
  ({ step with
      results := validated
      summary := some ("验证完成，保留 " ++ toString validated.length ++ " 个高质量结果") },
   { state with all_results := validated })

/-- The try-block of executor.py ExecutionEngine.execute_step: dispatch on the
step type; a backend exception propagates as Except.error.
A refine step with prior results searches with the refined query; the keyword
choice in _refine_query_based_on_results depends on Python set iteration order
and is supplied as env.refinedQuery. -/
def execute_step_body (env : StepEnv) (step : ExecutionStep) (state : ExecutionState) :
    Except String (ExecutionStep × ExecutionState) :=
  match step.step_type with
  | StepType.search => run_search_body env step state
  | StepType.analyze => Except.ok (run_analyze_body env step state)
  | StepType.refine =>
    if state.all_results.isEmpty then run_search_body env step state
    else
      run_search_body env
        { step with query := env.refinedQuery, description := "优化查询: " ++ env.refinedQuery }
        state
  | StepType.summarize => Except.ok (run_summarize_body env step state)
  | StepType.validate => Except.ok (run_validate_body step state)

/-- executor.py ExecutionEngine.execute_step: step.start, the dispatch body,
then step.complete with the computed confidence, or on any exception step.fail
plus state.add_error, returning False instead of raising. -/
def execute_step (env : StepEnv) (step0 : ExecutionStep) (state : ExecutionState) :
    ExecutionStep × ExecutionState × Bool :=
  match execute_step_body env { step0 with status := ExecutionStatus.running } state with
  | Except.ok (step, state) =>
    ({ step with
        status := ExecutionStatus.completed
        execution_time := some env.execTime
        confidence_score := calculate_step_confidence step },
     state, true)
  | Except.error e =>
    ({ step0 with
        status := ExecutionStatus.failed
        error := some ("步骤执行失败: " ++ e)
        execution_time := some env.execTime },
     state.add_error ("步骤执行失败: " ++ e), false)

/-! ### Loop executor (executor.py, LoopExecutor) -/

/-- Stable insertion into a list already sorted by descending score, placing
the new element after all existing elements with a score ≥ its own. -/
def insert_by_score (r : SearchResult) : List SearchResult → List SearchResult
  | [] => [r]
  | x :: xs => if x.score < r.score then r :: x :: xs else x :: insert_by_score r xs

/-- Python list.sort(key=score, reverse=True): a stable descending sort. -/
def sort_by_score_desc (results : List SearchResult) : List SearchResult :=
  results.foldl (fun acc r => insert_by_score r acc) []

/-- executor.py LoopExecutor._deduplicate_and_sort_results: repeats the URL
dedup loop of tools.py verbatim, then sorts by score descending. -/
def deduplicate_and_sort_results (results : List SearchResult) : List SearchResult :=
  sort_by_score_desc (deduplicate_by_url results)

/-- The state as left behind by one iteration of the loop in executor.py
LoopExecutor.execute_plan: the executed step written back into plan.steps
(Python mutates the step object held in the list in place), the plan cursor
advanced, and status CANCELLED when cancel_search interleaved at the await
point of this step. -/
def step_state_update (cancel : Bool) (done rest : List ExecutionStep)
    (step' : ExecutionStep) (state' : ExecutionState) : ExecutionState :=
  let s2 := { state' with
    plan := { state'.plan with
      steps := done ++ step' :: rest
      current_step_index := done.length + 1 } }
  if cancel then { s2 with status := ExecutionStatus.cancelled } else s2

/-- The per-step loop of executor.py LoopExecutor.execute_plan.  At every
iteration state.plan.steps equals the processed prefix followed by the
untouched remainder; the recursion keeps that list in sync explicitly.  The
evaluate_step_success and should_refine calls in the loop body only log and
change nothing, so they add no state here.  The second component is the
ordered log of assignments to state.status during the loop (one CANCELLED per
interleaved cancel_search). -/
def run_steps (env : Nat → StepEnv) :
    List ExecutionStep → List ExecutionStep → ExecutionState →
    ExecutionState × List ExecutionStatus
  | _done, [], state => (state, [])
  | done, step :: rest, state =>
    if (should_continue_execution (env done.length).now state).1 then
      let r := execute_step (env done.length) step state
      let state2 := step_state_update (env done.length).cancelDuring done rest r.1 r.2.1
      if (env done.length).cancelDuring then
        let rec2 := run_steps env (done ++ [r.1]) rest state2
        (rec2.1, ExecutionStatus.cancelled :: rec2.2)
      else
        run_steps env (done ++ [r.1]) rest state2
    else (state, [])

/-- executor.py LoopExecutor._finalize_execution: synthesize a final summarize
step when no summary exists yet and results do (Python truthiness: a missing
or empty final_summary both count as absent), then dedup+sort and truncate. -/
def finalize_execution (fenv : StepEnv) (finalStepId : String)
    (state : ExecutionState) : ExecutionState :=
  let state :=
    if (state.final_summary.getD "") = "" ∧ ¬ state.all_results.isEmpty then
      (execute_step fenv
        { step_id := finalStepId
          step_type := StepType.summarize
          description := "生成最终总结"
          query := state.request.query
          sources := []
          max_results := 0 }
        state).2.1
    else state
  let state := { state with all_results := deduplicate_and_sort_results state.all_results }
  if state.request.total_max_results < state.all_results.length then
    { state with all_results := state.all_results.take state.request.total_max_results }
  else state

/-- Whole-run environment for LoopExecutor.execute_plan: one StepEnv per loop
iteration, one for the synthesized summarize step, whether cancel_search
interleaves during finalization, and an interpreter-level unexpected exception
reaching the top-level except (none in every realizable run: execute_step and
finalization catch their own exceptions). -/
structure ExecEnv where
  stepEnvs : Nat → StepEnv
  finalizeEnv : StepEnv := {}
  cancelDuringFinalize : Bool := false
  unexpectedError : Option String := none

/-- executor.py LoopExecutor.execute_plan (with StateManager.create_state
inlined: fresh session id and start time supplied by the caller).  Returns the
final state together with the ordered log of every assignment to state.status
over the run: PENDING at creation, RUNNING immediately after (no await point
separates the two, so nothing can interleave between them), one CANCELLED per
interleaved cancel_search, and finally COMPLETED, or FAILED in the top-level
except branch. -/
def execute_plan (env : ExecEnv) (req : AgentSearchRequest) (plan : ExecutionPlan)
    (sessionId : String) (startTime : ℚ) (finalStepId : String) :
    ExecutionState × List ExecutionStatus :=
  let state0 : ExecutionState :=
    { session_id := sessionId, request := req, plan := plan
      status := ExecutionStatus.pending, start_time := startTime }
  let state1 := { state0 with status := ExecutionStatus.running }
  let run := run_steps env.stepEnvs [] plan.steps state1
  match env.unexpectedError with
  | some e =>
    (run.1.failWith ("执行计划失败: " ++ e),
     [ExecutionStatus.pending, ExecutionStatus.running] ++ run.2 ++ [ExecutionStatus.failed])
  | none =>
    let state3 := finalize_execution env.finalizeEnv finalStepId run.1
    let afterCancel :=
      if env.cancelDuringFinalize then
        ({ state3 with status := ExecutionStatus.cancelled },
         [ExecutionStatus.cancelled])
      else (state3, ([] : List ExecutionStatus))
    let state5 := afterCancel.1.completeWith afterCancel.1.final_summary afterCancel.1.final_tags
    (state5,
     [ExecutionStatus.pending, ExecutionStatus.running] ++ run.2 ++ afterCancel.2
       ++ [ExecutionStatus.completed])

/-- The full sequence of values assigned to state.status over a session:
everything execute_plan assigns plus any cancel_search calls arriving after
the run finished but before cleanup evicts the state. -/
def status_trace (env : ExecEnv) (req : AgentSearchRequest) (plan : ExecutionPlan)
    (sessionId : String) (startTime : ℚ) (finalStepId : String)
    (postCancels : Nat) : List ExecutionStatus :=
  (execute_plan env req plan sessionId startTime finalStepId).2
    ++ List.replicate postCancels ExecutionStatus.cancelled

/-! ### State manager and cancellation (executor.py StateManager,
search_agent.py SearchAgent.cancel_search) -/

/-- executor.py StateManager.states: the session map, with dict lookup by
session id (dict keys are unique; an association list looked up front-to-back
models it). -/
def get_state (states : List (String × ExecutionState)) (sessionId : String) :
    Option ExecutionState :=
  (states.find? (fun p => p.1 == sessionId)).map (fun p => p.2)

/-- search_agent.py SearchAgent.cancel_search: look the session up via the
state manager of the executor; on a miss return False touching nothing, otherwise
set the status of that session to CANCELLED (in Python by mutating the stored
object) and return True.  The tracing side effect writes only observability
data, not the session map. -/
def cancel_search (states : List (String × ExecutionState)) (sessionId : String) :
    Bool × List (String × ExecutionState) :=
  match get_state states sessionId with
  | none => (false, states)
  | some st =>
    (true,
     states.map (fun p =>
       if p.1 == sessionId then (p.1, { st with status := ExecutionStatus.cancelled }) else p))

/-! ### Concrete fixtures used by witnesses and counterexamples -/

/-- A search result carrying only a URL, as in spec Scenario D. -/
def mkRes (u : String) : SearchResult :=
  { title := "", url := u, snippet := "", score := 0 }

/-- A search step already marked COMPLETED, with no results attached. -/
def completedSearchStep (id : String) : ExecutionStep :=
  { step_id := id, step_type := StepType.search, description := "", query := "q"
    sources := [], max_results := 10, status := ExecutionStatus.completed }

/-- Scenario C state: request.max_iterations = 2, two completed steps. -/
def scenarioCState : ExecutionState :=
  { session_id := "s"
    request := { query := "q", max_iterations := 2 }
    plan := { plan_id := "p", original_query := "q", strategy := PlanningStrategy.simple
              steps := [completedSearchStep "a", completedSearchStep "b"] } }

/-- A state whose request has timeout 0 (the disabled-timeout configuration). -/
def zeroTimeoutState : ExecutionState :=
  { session_id := "s"
    request := { query := "q", timeout := 0 }
    plan := { plan_id := "p", original_query := "q", strategy := PlanningStrategy.simple
              steps := [] } }

/-! ### Claim C5 — order of the stop conditions in should_continue_execution -/

/-- C5 counterexample: with request.timeout = 0 the elapsed time 1 exceeds
request.timeout, yet should_continue_execution answers (true, 继续执行) rather
than the claimed (false, 执行超时): the timeout clause of the claim omits the
non-positive-timeout carve-out of _is_timeout. -/
theorem C5_counterexample :
    (zeroTimeoutState.request.timeout : ℚ) < 1 - zeroTimeoutState.start_time
    ∧ should_continue_execution 1 zeroTimeoutState = (true, "继续执行")
    ∧ should_continue_execution 1 zeroTimeoutState ≠ (false, "执行超时") := by
  refine ⟨by norm_num [zeroTimeoutState], by decide, by decide⟩

/-- C5 (amended): should_continue_execution checks, in this order: timeout
(only when request.timeout is positive), completed-step count ≥ max_iterations,
result count ≥ total_max_results, ≥ 2 failures among the last 3 plan steps;
otherwise it continues.  In particular max_iterations = 2 with 2 completed
steps and no timeout yields (false, 达到最大迭代次数) — see the witness. -/
theorem C5_should_continue_priority :
    ∀ (now : ℚ) (state : ExecutionState),
    ((0 < state.request.timeout ∧ (state.request.timeout : ℚ) < now - state.start_time) →
      should_continue_execution now state = (false, "执行超时"))
    ∧ (is_timeout now state = false →
        state.request.max_iterations ≤
          ((state.plan.steps.filter (fun s => s.status == ExecutionStatus.completed)).length : Int) →
        should_continue_execution now state = (false, "达到最大迭代次数"))
    ∧ (is_timeout now state = false → reached_max_iterations state = false →
        state.request.total_max_results ≤ state.all_results.length →
        should_continue_execution now state = (false, "已获得足够的结果"))
    ∧ (is_timeout now state = false → reached_max_iterations state = false →
        has_sufficient_results state = false →
        2 ≤ ((lastThree state.plan.steps).filter
              (fun s => s.status == ExecutionStatus.failed)).length →
        should_continue_execution now state = (false, "遇到严重错误"))
    ∧ (is_timeout now state = false → reached_max_iterations state = false →
        has_sufficient_results state = false → has_critical_errors state = false →
        should_continue_execution now state = (true, "继续执行")) := by
  intro now state
  refine ⟨?_, ?_, ?_, ?_, ?_⟩
  · rintro ⟨h1, h2⟩
    have ht : is_timeout now state = true := by
      simp only [is_timeout]
      rw [if_neg (by omega)]
      exact decide_eq_true h2
    simp [should_continue_execution, ht]
  · intro ht h
    have hm : reached_max_iterations state = true := decide_eq_true h
    simp [should_continue_execution, ht, hm]
  · intro ht hm h
    have hs : has_sufficient_results state = true := decide_eq_true h
    simp [should_continue_execution, ht, hm, hs]
  · intro ht hm hs h
    have hc : has_critical_errors state = true := decide_eq_true h
    simp [should_continue_execution, ht, hm, hs, hc]
  · intro ht hm hs hc
    simp [should_continue_execution, ht, hm, hs, hc]

/-- C5 witness: Scenario C — max_iterations 2, two completed steps, no
timeout: should_continue_execution stops with 达到最大迭代次数. -/
theorem C5_witness :
    should_continue_execution 0 scenarioCState = (false, "达到最大迭代次数") :=
  (C5_should_continue_priority 0 scenarioCState).2.1
    (by simp [is_timeout, scenarioCState]) (by decide)

/-! ### Claim C9 — non-positive timeout disables the timeout check -/

/-- C9: with request.timeout ≤ 0 the timeout predicate is false for every
current instant, so should_continue_execution never stops with the timeout
reason. -/
theorem C9_timeout_disabled :
    ∀ (now : ℚ) (state : ExecutionState),
    state.request.timeout ≤ 0 →
    is_timeout now state = false
    ∧ should_continue_execution now state ≠ (false, "执行超时") := by
  intro now state h
  have ht : is_timeout now state = false := by
    simp only [is_timeout]
    rw [if_pos h]
  refine ⟨ht, ?_⟩
  simp only [should_continue_execution, ht, if_false, Bool.false_eq_true]
  split
  · simp
  · split
    · simp
    · split
      · simp
      · simp

/-- C9 witness: a concrete state with timeout 0 observed at instant 5. -/
theorem C9_witness :
    is_timeout 5 zeroTimeoutState = false
    ∧ should_continue_execution 5 zeroTimeoutState ≠ (false, "执行超时") :=
  C9_timeout_disabled 5 zeroTimeoutState (by decide)

/-! ### Claim C6 — step-success evaluation -/

/-- Modelled from the claim text of C6: the success score exactly as the claim
words it, applied to any non-failed step — min(resultCount/5, 1.0), averaged
with the confidence_score of the step when that is nonzero.  Compared against
the evaluate_step_success of the source. -/
def claimed_success_score (step : ExecutionStep) : ℚ :=
  let s : ℚ := min ((step.results.length : ℚ) / 5) 1
  if step.confidence_score ≠ 0 then (s + step.confidence_score) / 2 else s

/-- A completed step with zero results but a high confidence score. -/
def zeroResultStep : ExecutionStep :=
  { step_id := "z", step_type := StepType.search, description := "", query := "q"
    sources := [], max_results := 10, status := ExecutionStatus.completed
    results := [], confidence_score := 9/10 }

/-- A failed step carrying an error message. -/
def failedStepFx : ExecutionStep :=
  { step_id := "f", step_type := StepType.search, description := "", query := "q"
    sources := [], max_results := 10, status := ExecutionStatus.failed
    error := some "后端异常" }

/-- A completed step with two results and zero confidence. -/
def twoResultStep : ExecutionStep :=
  { step_id := "t", step_type := StepType.search, description := "", query := "q"
    sources := [], max_results := 10, status := ExecutionStatus.completed
    results := [mkRes "a", mkRes "b"] }

/-- C6 counterexample: a completed (hence non-failed) step with zero results
and confidence 9/10 has claim-score (0 + 9/10)/2 = 9/20 ≥ 0.4, so the claim
predicts true, but evaluate_step_success returns false with score 0.0 through
its zero-result early return, which the claim omits. -/
theorem C6_counterexample :
    zeroResultStep.status ≠ ExecutionStatus.failed
    ∧ (2 : ℚ)/5 ≤ claimed_success_score zeroResultStep
    ∧ evaluate_step_success zeroResultStep = (false, 0, "未找到任何结果") := by
  refine ⟨by decide, ?_, ?_⟩
  · norm_num [claimed_success_score, zeroResultStep]
  · simp [evaluate_step_success, zeroResultStep]

/-- C6 (amended): a failed step yields (false, 0, its error); a completed step
with zero results yields (false, 0, 未找到任何结果) regardless of confidence;
a completed step with at least one result is scored min(count/5, 1), averaged
with the confidence score when that is positive, and succeeds exactly when the
score is ≥ 0.4. -/
theorem C6_step_success :
    ∀ step : ExecutionStep,
    (step.status = ExecutionStatus.failed →
      evaluate_step_success step = (false, 0, orDefault step.error "步骤执行失败"))
    ∧ (step.status = ExecutionStatus.completed → step.results = [] →
      evaluate_step_success step = (false, 0, "未找到任何结果"))
    ∧ (step.status = ExecutionStatus.completed → step.results ≠ [] →
      (evaluate_step_success step).2.1 = success_score step
      ∧ ((evaluate_step_success step).1 = true ↔ (2 : ℚ)/5 ≤ success_score step)) := by
  intro step
  refine ⟨?_, ?_, ?_⟩
  · intro h; simp [evaluate_step_success, h]
  · intro h hr; simp [evaluate_step_success, h, hr]
  · intro h hr
    have hlen : (step.results.length == 0) = false := by
      simp [List.length_eq_zero, hr]
    have e1 : (step.status == ExecutionStatus.failed) = false := by simp [h]
    have e2 : (step.status != ExecutionStatus.completed) = false := by simp [h]
    simp only [evaluate_step_success, e1, e2, hlen, Bool.false_eq_true, if_false]
    constructor
    · by_cases h7 : (7 : ℚ)/10 ≤ success_score step
      · rw [if_pos h7]
      · rw [if_neg h7]
        by_cases h4 : (2 : ℚ)/5 ≤ success_score step
        · rw [if_pos h4]
        · rw [if_neg h4]
    · by_cases h7 : (7 : ℚ)/10 ≤ success_score step
      · rw [if_pos h7]
        exact ⟨fun _ => le_trans (by norm_num) h7, fun _ => rfl⟩
      · rw [if_neg h7]
        by_cases h4 : (2 : ℚ)/5 ≤ success_score step
        · rw [if_pos h4]
          exact ⟨fun _ => h4, fun _ => rfl⟩
        · rw [if_neg h4]
          simp [h4]

/-- C6 witness: the failed fixture takes the failure branch; the completed
two-result fixture is scored 2/5 and counts as (partial) success. -/
theorem C6_witness :
    evaluate_step_success failedStepFx = (false, 0, "后端异常")
    ∧ ((evaluate_step_success twoResultStep).1 = true
        ↔ (2 : ℚ)/5 ≤ success_score twoResultStep) := by
  constructor
  · have h := (C6_step_success failedStepFx).1 rfl
    simpa [orDefault, failedStepFx] using h
  · exact ((C6_step_success twoResultStep).2.2 rfl (by simp [twoResultStep])).2

/-! ### Claim C8 — URL deduplication -/

/-- The dedup loop output is a sublist of the input: kept elements appear in
input order. -/
theorem dedupGo_sublist :
    ∀ (xs : List SearchResult) (seen : List String), (dedupGo seen xs).Sublist xs := by
  intro xs
  induction xs with
  | nil => intro seen; simp [dedupGo]
  | cons r rest ih =>
    intro seen
    simp only [dedupGo]
    split
    · exact (ih seen).trans (List.sublist_cons_self r rest)
    · exact List.Sublist.cons₂ r (ih (r.url :: seen))

/-- URLs already seen never appear in the dedup loop output. -/
theorem dedupGo_filter_mem :
    ∀ (xs : List SearchResult) (seen : List String) (u : String), u ∈ seen →
    (dedupGo seen xs).filter (fun r => r.url == u) = [] := by
  intro xs
  induction xs with
  | nil => intros; simp [dedupGo]
  | cons r rest ih =>
    intro seen u hu
    simp only [dedupGo]
    split
    · exact ih seen u hu
    · rename_i hnin
      have hne : (r.url == u) = false := by
        simp only [beq_eq_false_iff_ne]
        rintro rfl
        exact hnin hu
      simp [List.filter_cons, hne,
        ih (r.url :: seen) u (List.mem_cons_of_mem _ hu)]

/-- For a URL not yet seen, the dedup loop keeps exactly the first input
element carrying it. -/
theorem dedupGo_filter_first :
    ∀ (xs : List SearchResult) (seen : List String) (u : String), u ∉ seen →
    (dedupGo seen xs).filter (fun r => r.url == u)
      = (xs.filter (fun r => r.url == u)).take 1 := by
  intro xs
  induction xs with
  | nil => intros; simp [dedupGo]
  | cons r rest ih =>
    intro seen u hu
    simp only [dedupGo]
    split
    · rename_i hin
      have hne : (r.url == u) = false := by
        simp only [beq_eq_false_iff_ne]
        rintro rfl
        exact hu hin
      simp [List.filter_cons, hne, ih seen u hu]
    · rename_i hnin
      by_cases hr : r.url = u
      · subst hr
        simp [List.filter_cons,
          dedupGo_filter_mem rest (r.url :: seen) r.url (List.mem_cons_self _ _)]
      · have hne : (r.url == u) = false := by simp [hr]
        have hu2 : u ∉ r.url :: seen := by
          intro hmem
          rcases List.mem_cons.mp hmem with h | h
          · exact hr h.symm
          · exact hu h
        simp [List.filter_cons, hne, ih (r.url :: seen) u hu2]

/-- The dedup loop is idempotent for any initial seen set. -/
theorem dedupGo_idem :
    ∀ (xs : List SearchResult) (seen : List String),
    dedupGo seen (dedupGo seen xs) = dedupGo seen xs := by
  intro xs
  induction xs with
  | nil => intro seen; simp [dedupGo]
  | cons r rest ih =>
    intro seen
    simp only [dedupGo]
    split
    · exact ih seen
    · rename_i hnin
      simp only [dedupGo, if_neg hnin]
      rw [ih (r.url :: seen)]

/-- C8: URL deduplication keeps exactly the first occurrence per URL (output
restricted to any URL is the first input element with it), preserves the input
order of kept elements (output is a sublist of the input), is idempotent, and
on the Scenario D input [a, a, b] returns [a, b]. -/
theorem C8_deduplicate_by_url_spec :
    (∀ xs : List SearchResult, (deduplicate_by_url xs).Sublist xs)
    ∧ (∀ (xs : List SearchResult) (u : String),
        (deduplicate_by_url xs).filter (fun r => r.url == u)
          = (xs.filter (fun r => r.url == u)).take 1)
    ∧ (∀ xs : List SearchResult,
        deduplicate_by_url (deduplicate_by_url xs) = deduplicate_by_url xs)
    ∧ deduplicate_by_url [mkRes "a", mkRes "a", mkRes "b"] = [mkRes "a", mkRes "b"] := by
  refine ⟨fun xs => dedupGo_sublist xs [],
    fun xs u => dedupGo_filter_first xs [] u (by simp),
    fun xs => dedupGo_idem xs [],
    by decide⟩

/-! ### Claim C10 — cancel_search against the session map -/

/-- Session-map lookup finds a matching head entry. -/
theorem get_state_cons_eq (q : String × ExecutionState)
    (rest : List (String × ExecutionState)) (sid : String)
    (hq : (q.1 == sid) = true) : get_state (q :: rest) sid = some q.2 := by
  unfold get_state
  rw [List.find?_cons, hq]
  rfl

/-- Session-map lookup skips a non-matching head entry. -/
theorem get_state_cons_ne (q : String × ExecutionState)
    (rest : List (String × ExecutionState)) (sid : String)
    (hq : (q.1 == sid) = false) : get_state (q :: rest) sid = get_state rest sid := by
  unfold get_state
  rw [List.find?_cons, hq]

/-- Looking up the cancelled session after the map update yields the stored
state with status CANCELLED (or nothing if the session was absent). -/
theorem get_state_map_cancel :
    ∀ (states : List (String × ExecutionState)) (sid : String) (newSt : ExecutionState),
    get_state (states.map (fun p => if p.1 == sid then (p.1, newSt) else p)) sid
      = (get_state states sid).map (fun _ => newSt) := by
  intro states sid newSt
  induction states with
  | nil => rfl
  | cons p rest ih =>
    rw [List.map_cons]
    cases hb : (p.1 == sid) with
    | true =>
      rw [if_pos rfl]
      rw [get_state_cons_eq (p.1, newSt) _ sid hb]
      rw [get_state_cons_eq p rest sid hb]
      rfl
    | false =>
      rw [if_neg Bool.false_ne_true]
      rw [get_state_cons_ne _ _ _ hb, get_state_cons_ne _ _ _ hb]
      exact ih

/-- Sessions other than the cancelled one read back unchanged. -/
theorem get_state_map_other :
    ∀ (states : List (String × ExecutionState)) (sid : String)
      (newSt : ExecutionState) (sid2 : String), sid2 ≠ sid →
    get_state (states.map (fun p => if p.1 == sid then (p.1, newSt) else p)) sid2
      = get_state states sid2 := by
  intro states sid newSt sid2 hne
  induction states with
  | nil => rfl
  | cons p rest ih =>
    rw [List.map_cons]
    cases hb : (p.1 == sid) with
    | true =>
      have hps : p.1 = sid := by simpa using hb
      have h2 : (p.1 == sid2) = false := by simp [hps, Ne.symm hne]
      rw [if_pos rfl]
      rw [get_state_cons_ne (p.1, newSt) _ sid2 h2]
      rw [get_state_cons_ne p rest sid2 h2]
      exact ih
    | false =>
      rw [if_neg Bool.false_ne_true]
      cases h3 : (p.1 == sid2) with
      | true => rw [get_state_cons_eq _ _ _ h3, get_state_cons_eq _ _ _ h3]
      | false =>
        rw [get_state_cons_ne _ _ _ h3, get_state_cons_ne _ _ _ h3]
        exact ih

/-- C10: cancel_search returns False and leaves the session map untouched
exactly when the session id is absent; when present it returns True, the
stored state for that id now reads back with status CANCELLED, and every
other session reads back unchanged. -/
theorem C10_cancel_search_spec :
    ∀ (states : List (String × ExecutionState)) (sid : String),
    (get_state states sid = none → cancel_search states sid = (false, states))
    ∧ (∀ st, get_state states sid = some st →
        (cancel_search states sid).1 = true
        ∧ get_state (cancel_search states sid).2 sid
            = some { st with status := ExecutionStatus.cancelled }
        ∧ ∀ sid2, sid2 ≠ sid →
            get_state (cancel_search states sid).2 sid2 = get_state states sid2)
    ∧ ((cancel_search states sid).1 = true ↔ get_state states sid ≠ none) := by
  intro states sid
  refine ⟨?_, ?_, ?_⟩
  · intro h
    unfold cancel_search
    rw [h]
  · intro st h
    have hc : cancel_search states sid
        = (true, states.map (fun p =>
            if p.1 == sid then (p.1, { st with status := ExecutionStatus.cancelled }) else p)) := by
      unfold cancel_search
      rw [h]
    refine ⟨by rw [hc], ?_, ?_⟩
    · rw [hc, get_state_map_cancel, h]
      rfl
    · intro sid2 hne
      rw [hc]
      exact get_state_map_other states sid _ sid2 hne
  · cases h : get_state states sid with
    | none =>
      have hc : cancel_search states sid = (false, states) := by
        unfold cancel_search
        rw [h]
      simp [hc]
    | some st =>
      have hc : (cancel_search states sid).1 = true := by
        unfold cancel_search
        rw [h]
      simp [hc, h]

/-- A stored running session used by the C10 witness. -/
def fxRunningState : ExecutionState :=
  { session_id := "sess1"
    request := { query := "q" }
    plan := { plan_id := "p", original_query := "q"
              strategy := PlanningStrategy.simple, steps := [] }
    status := ExecutionStatus.running }

/-- The C10 witness session map holding one running session. -/
def fxSessionMap : List (String × ExecutionState) := [("sess1", fxRunningState)]

/-- C10 witness: cancelling the stored session succeeds and flips its status;
cancelling an unknown id returns False and changes nothing. -/
theorem C10_witness :
    (cancel_search fxSessionMap "sess1").1 = true
    ∧ get_state (cancel_search fxSessionMap "sess1").2 "sess1"
        = some { fxRunningState with status := ExecutionStatus.cancelled }
    ∧ cancel_search fxSessionMap "missing" = (false, fxSessionMap) := by
  refine ⟨((C10_cancel_search_spec fxSessionMap "sess1").2.1 fxRunningState rfl).1,
    ((C10_cancel_search_spec fxSessionMap "sess1").2.1 fxRunningState rfl).2.1,
    (C10_cancel_search_spec fxSessionMap "missing").1 rfl⟩

/-! ### Claim C3 — decomposition of comparison queries -/

/-- Scenario B request: the comparison query. -/
def compReq : AgentSearchRequest := { query := "ChatGPT vs Claude 对比分析" }

/-- The normalized basic analysis of the Scenario B query: 4 tokens (medium),
comparison pattern matched, hence requires multiple searches. -/
def compAnalysis : BasicAnalysis :=
  { requires_multiple_searches := true, query_type := "comparison"
    complexity := "medium", intent := "comparison" }

/-- A deterministic stand-in for the uuid-based step-id generator. -/
def stepIds : Nat → String := fun n => "step_" ++ toString n

/-- C3 counterexample: under the default of the source, use_dynamic_generation =
True the dynamic generator is stubbed out, so decompose_task on the comparison
analysis returns a single fallback simple search step, not the claimed 3
steps. -/
theorem C3_counterexample :
    compAnalysis.query_type = "comparison"
    ∧ compAnalysis.requires_multiple_searches = true
    ∧ (decompose_task true compReq compAnalysis stepIds).length = 1
    ∧ (decompose_task true compReq compAnalysis stepIds).length ≠ 3 := by
  refine ⟨rfl, rfl, rfl, by decide⟩

/-- C3 (amended): with dynamic step generation disabled (the non-default
traditional path), decompose_task on a comparison analysis that requires
multiple searches returns exactly the 3 claimed steps in order — a baseline
search with the original query, a search with the query extended by
详细对比 优缺点, and an analyze step; with the default
use_dynamic_generation = True of the source it instead returns the single
simple fallback search step. -/
theorem C3_decompose_comparison :
    ∀ (req : AgentSearchRequest) (a : BasicAnalysis) (ids : Nat → String),
    a.requires_multiple_searches = true →
    a.query_type = "comparison" →
    ((decompose_task false req a ids).map (fun s => (s.step_type, s.query))
        = [(StepType.search, req.query),
           (StepType.search, req.query ++ " 详细对比 优缺点"),
           (StepType.analyze, req.query)]
      ∧ (decompose_task false req a ids).length = 3
      ∧ decompose_task true req a ids = [create_simple_search_step req (ids 0)]) := by
  intro req a ids hm hq
  refine ⟨?_, ?_, ?_⟩
  · simp [decompose_task, hm, create_multi_step_plan, hq, create_comparison_steps]
  · simp [decompose_task, hm, create_multi_step_plan, hq, create_comparison_steps]
  · simp [decompose_task, hm]

/-- C3 witness: the amended statement instantiated at the Scenario B request and
analysis. -/
theorem C3_witness :
    (decompose_task false compReq compAnalysis stepIds).map (fun s => (s.step_type, s.query))
      = [(StepType.search, "ChatGPT vs Claude 对比分析"),
         (StepType.search, "ChatGPT vs Claude 对比分析 详细对比 优缺点"),
         (StepType.analyze, "ChatGPT vs Claude 对比分析")]
    ∧ decompose_task true compReq compAnalysis stepIds
        = [create_simple_search_step compReq (stepIds 0)] :=
  ⟨(C3_decompose_comparison compReq compAnalysis stepIds rfl rfl).1,
   (C3_decompose_comparison compReq compAnalysis stepIds rfl rfl).2.2⟩

/-! ### Claim C4 — planner never raises; fallback plan; plan invariants -/

/-- A successful planner pipeline implies the decomposed steps passed
validation. -/
theorem planner_pipeline_ok_validate :
    ∀ (analysis : Except String BasicAnalysis)
      (g : BasicAnalysis → Except String PlanningStrategy)
      (d : BasicAnalysis → Except String (List ExecutionStep))
      (a : BasicAnalysis) (strat : PlanningStrategy) (steps : List ExecutionStep),
    planner_pipeline analysis g d = Except.ok (a, strat, steps) →
    validate_plan steps = Except.ok () := by
  intro analysis g d a strat steps h
  simp only [planner_pipeline, bind, Except.bind] at h
  cases analysis with
  | error e => simp at h
  | ok a0 =>
    simp only at h
    cases hg : g a0 with
    | error e => simp only [hg] at h; cases h
    | ok s0 =>
      simp only [hg] at h
      cases hd : d a0 with
      | error e => simp only [hd] at h; cases h
      | ok st0 =>
        simp only [hd] at h
        cases hv : validate_plan st0 with
        | error e => simp only [hv] at h; cases h
        | ok u =>
          simp only [hv, pure, Except.pure, Except.ok.injEq] at h
          obtain ⟨rfl, rfl, rfl⟩ := h
          cases u
          exact hv

/-- Validation succeeds only on a nonempty step list with pairwise-distinct
step ids. -/
theorem validate_plan_ok :
    ∀ steps : List ExecutionStep, validate_plan steps = Except.ok () →
    steps ≠ [] ∧ (steps.map (fun s => s.step_id)).Nodup := by
  intro steps h
  unfold validate_plan at h
  split at h
  · exact absurd h (by simp)
  · split at h
    · exact absurd h (by simp)
    · split at h
      · exact absurd h (by simp)
      · rename_i h1 h2 h3
        refine ⟨by simpa [List.isEmpty_iff] using h1, by simpa using h2⟩

/-- C4: create_execution_plan never propagates an exception (it is total by
construction, with the top-level except modelled by the pipeline match); when
any sub-stage raises it returns the fallback plan — strategy simple, exactly
one search step wrapping the original query, confidence 0.5 — and every plan
it returns has at least one step and pairwise-distinct step ids. -/
theorem C4_create_plan_safe :
    ∀ (atype : String) (req : AgentSearchRequest)
      (analysis : Except String BasicAnalysis)
      (g : BasicAnalysis → Except String PlanningStrategy)
      (d : BasicAnalysis → Except String (List ExecutionStep))
      (planId fallbackPlanId fallbackStepId : String),
    (∀ e, planner_pipeline analysis g d = Except.error e →
        create_execution_plan atype req analysis g d planId fallbackPlanId fallbackStepId
          = create_fallback_plan req fallbackPlanId fallbackStepId)
    ∧ (create_fallback_plan req fallbackPlanId fallbackStepId).strategy = PlanningStrategy.simple
    ∧ ((create_fallback_plan req fallbackPlanId fallbackStepId).steps.map
        (fun s => (s.step_type, s.query))) = [(StepType.search, req.query)]
    ∧ (create_fallback_plan req fallbackPlanId fallbackStepId).confidence_score = 1/2
    ∧ 1 ≤ (create_execution_plan atype req analysis g d planId fallbackPlanId fallbackStepId).steps.length
    ∧ ((create_execution_plan atype req analysis g d planId fallbackPlanId fallbackStepId).steps.map
        (fun s => s.step_id)).Nodup := by
  intro atype req analysis g d planId fallbackPlanId fallbackStepId
  refine ⟨?_, rfl, rfl, rfl, ?_, ?_⟩
  · intro e he
    unfold create_execution_plan
    rw [he]
  · cases hp : planner_pipeline analysis g d with
    | error e =>
      unfold create_execution_plan
      rw [hp]
      simp [create_fallback_plan]
    | ok t =>
      obtain ⟨a, strat, steps⟩ := t
      have hv := planner_pipeline_ok_validate analysis g d a strat steps hp
      have hne := (validate_plan_ok steps hv).1
      unfold create_execution_plan
      rw [hp]
      simpa using List.length_pos.mpr hne
  · cases hp : planner_pipeline analysis g d with
    | error e =>
      unfold create_execution_plan
      rw [hp]
      simp [create_fallback_plan]
    | ok t =>
      obtain ⟨a, strat, steps⟩ := t
      have hv := planner_pipeline_ok_validate analysis g d a strat steps hp
      have hnd := (validate_plan_ok steps hv).2
      unfold create_execution_plan
      rw [hp]
      exact hnd

/-- C4 witness: a pipeline whose analysis stage raises yields exactly the
fallback plan, which satisfies the plan invariants. -/
theorem C4_witness :
    create_execution_plan "rule_based" compReq (Except.error "分析失败")
        (fun _ => Except.ok PlanningStrategy.simple) (fun _ => Except.ok [])
        "plan_1" "fb_plan" "fb_step"
      = create_fallback_plan compReq "fb_plan" "fb_step"
    ∧ 1 ≤ (create_execution_plan "rule_based" compReq (Except.error "分析失败")
        (fun _ => Except.ok PlanningStrategy.simple) (fun _ => Except.ok [])
        "plan_1" "fb_plan" "fb_step").steps.length :=
  ⟨((C4_create_plan_safe "rule_based" compReq (Except.error "分析失败")
      (fun _ => Except.ok PlanningStrategy.simple) (fun _ => Except.ok [])
      "plan_1" "fb_plan" "fb_step").1 "分析失败" rfl),
   ((C4_create_plan_safe "rule_based" compReq (Except.error "分析失败")
      (fun _ => Except.ok PlanningStrategy.simple) (fun _ => Except.ok [])
      "plan_1" "fb_plan" "fb_step").2.2.2.2.1)⟩

/-! ### Loop executor lemmas -/

/-- execute_step always leaves the step COMPLETED or FAILED, never raising. -/
theorem execute_step_status :
    ∀ (env : StepEnv) (step : ExecutionStep) (state : ExecutionState),
    (execute_step env step state).1.status = ExecutionStatus.completed
    ∨ (execute_step env step state).1.status = ExecutionStatus.failed := by
  intro env step state
  unfold execute_step
  cases h : execute_step_body env { step with status := ExecutionStatus.running } state with
  | ok p =>
    obtain ⟨s2, st2⟩ := p
    left
    rfl
  | error e =>
    right
    rfl

/-- The post-iteration state always records the executed step between the
processed prefix and the untouched remainder. -/
theorem step_state_update_steps (cancel : Bool) (done rest : List ExecutionStep)
    (step' : ExecutionStep) (state' : ExecutionState) :
    (step_state_update cancel done rest step' state').plan.steps = done ++ step' :: rest := by
  unfold step_state_update
  split
  · rfl
  · rfl

/-- A list whose (n+1)-prefix is done ++ [x] has done as its n-prefix. -/
theorem take_of_take_succ {α : Type} (L done : List α) (x : α)
    (h : L.take (done.length + 1) = done ++ [x]) : L.take done.length = done := by
  have h1 : L.take done.length = (L.take (done.length + 1)).take done.length := by
    rw [List.take_take, Nat.min_eq_left (Nat.le_succ _)]
  rw [h1, h, List.take_left]

/-- Already-processed steps are never modified by later loop iterations: the
final plan keeps the processed prefix. -/
theorem run_steps_keeps_done :
    ∀ (env : Nat → StepEnv) (rest done : List ExecutionStep) (state : ExecutionState),
    state.plan.steps = done ++ rest →
    ((run_steps env done rest state).1.plan.steps).take done.length = done := by
  intro env rest
  induction rest with
  | nil =>
    intro done state h
    simp only [run_steps]
    rw [h, List.append_nil, List.take_length]
  | cons step rest ih =>
    intro done state h
    simp only [run_steps]
    by_cases hc : (should_continue_execution (env done.length).now state).1 = true
    · rw [if_pos hc]
      have h2 := ih (done ++ [(execute_step (env done.length) step state).1])
        (step_state_update (env done.length).cancelDuring done rest
          (execute_step (env done.length) step state).1
          (execute_step (env done.length) step state).2.1)
        (by rw [step_state_update_steps]; exact List.append_cons done _ rest)
      simp only [List.length_append, List.length_cons, List.length_nil, Nat.zero_add] at h2
      by_cases hd : (env done.length).cancelDuring = true
      · rw [if_pos hd]
        exact take_of_take_succ _ done _ h2
      · rw [if_neg hd]
        exact take_of_take_succ _ done _ h2
    · rw [if_neg hc]
      rw [h, List.take_left]

/-- One loop iteration whose shouldContinue check passes: the final state is
the recursive run on the updated prefix and state. -/
theorem run_steps_cons_fst :
    ∀ (env : Nat → StepEnv) (done rest : List ExecutionStep)
      (stepA : ExecutionStep) (state : ExecutionState),
    (should_continue_execution (env done.length).now state).1 = true →
    (run_steps env done (stepA :: rest) state).1
      = (run_steps env (done ++ [(execute_step (env done.length) stepA state).1]) rest
          (step_state_update (env done.length).cancelDuring done rest
            (execute_step (env done.length) stepA state).1
            (execute_step (env done.length) stepA state).2.1)).1 := by
  intro env done rest stepA state h1
  simp only [run_steps]
  rw [if_pos h1]
  by_cases hd : (env done.length).cancelDuring = true
  · rw [if_pos hd]
  · rw [if_neg hd]

/-! ### Claim C7 — a failing search step is recorded and does not abort the loop -/

/-- C7: when the backend call of a search step raises, execute_step marks the
step FAILED with the error message, appends exactly one entry to state.errors,
returns False instead of raising, and changes neither the accumulated results
nor the plan — so among the stop conditions only the 2-of-last-3-failures
check can be tripped by the failure itself; the loop then evaluates
shouldContinue at the next boundary and, whenever that check passes, executes
the next step to COMPLETED or FAILED, keeping both steps in the final plan. -/
theorem C7_failed_search_step :
    ∀ (env : Nat → StepEnv) (done rest : List ExecutionStep)
      (stepA stepB : ExecutionStep) (state : ExecutionState) (e : String),
    stepA.step_type = StepType.search →
    (env done.length).backend = Except.error e →
    state.plan.steps = done ++ stepA :: stepB :: rest →
    (should_continue_execution (env done.length).now state).1 = true →
    ((execute_step (env done.length) stepA state).1.status = ExecutionStatus.failed
    ∧ (execute_step (env done.length) stepA state).1.error
        = some ("步骤执行失败: " ++ e)
    ∧ (execute_step (env done.length) stepA state).2.1.errors
        = state.errors ++ ["步骤执行失败: " ++ e]
    ∧ (execute_step (env done.length) stepA state).2.2 = false
    ∧ (execute_step (env done.length) stepA state).2.1.all_results = state.all_results
    ∧ (execute_step (env done.length) stepA state).2.1.plan = state.plan
    ∧ ((should_continue_execution (env (done.length + 1)).now
          (step_state_update (env done.length).cancelDuring done (stepB :: rest)
            (execute_step (env done.length) stepA state).1
            (execute_step (env done.length) stepA state).2.1)).1 = true →
        (run_steps env done (stepA :: stepB :: rest) state).1.plan.steps.take (done.length + 2)
          = done ++ [(execute_step (env done.length) stepA state).1,
              (execute_step (env (done.length + 1)) stepB
                (step_state_update (env done.length).cancelDuring done (stepB :: rest)
                  (execute_step (env done.length) stepA state).1
                  (execute_step (env done.length) stepA state).2.1)).1]
        ∧ ((execute_step (env (done.length + 1)) stepB
              (step_state_update (env done.length).cancelDuring done (stepB :: rest)
                (execute_step (env done.length) stepA state).1
                (execute_step (env done.length) stepA state).2.1)).1.status
              = ExecutionStatus.completed
            ∨ (execute_step (env (done.length + 1)) stepB
                (step_state_update (env done.length).cancelDuring done (stepB :: rest)
                  (execute_step (env done.length) stepA state).1
                  (execute_step (env done.length) stepA state).2.1)).1.status
              = ExecutionStatus.failed))) := by
  intro env done rest stepA stepB state e hA henv hsteps hc1
  have hstep : execute_step (env done.length) stepA state
      = ({ stepA with
            status := ExecutionStatus.failed
            error := some ("步骤执行失败: " ++ e)
            execution_time := some (env done.length).execTime },
         state.add_error ("步骤执行失败: " ++ e), false) := by
    unfold execute_step execute_step_body
    dsimp only
    rw [hA]
    dsimp only
    unfold run_search_body
    rw [henv]
  refine ⟨by rw [hstep], by rw [hstep], by rw [hstep]; rfl, by rw [hstep],
    by rw [hstep]; rfl, by rw [hstep]; rfl, ?_⟩
  intro hc2
  have hlen : (done ++ [(execute_step (env done.length) stepA state).1]).length
      = done.length + 1 := by simp
  rw [run_steps_cons_fst env done (stepB :: rest) stepA state hc1]
  rw [run_steps_cons_fst env (done ++ [(execute_step (env done.length) stepA state).1])
    rest stepB _ (by rw [hlen]; exact hc2)]
  rw [hlen]
  constructor
  · have hp := run_steps_keeps_done env rest
      ((done ++ [(execute_step (env done.length) stepA state).1])
        ++ [(execute_step (env (done.length + 1)) stepB
              (step_state_update (env done.length).cancelDuring done (stepB :: rest)
                (execute_step (env done.length) stepA state).1
                (execute_step (env done.length) stepA state).2.1)).1])
      (step_state_update (env (done.length + 1)).cancelDuring
        (done ++ [(execute_step (env done.length) stepA state).1]) rest
        (execute_step (env (done.length + 1)) stepB
          (step_state_update (env done.length).cancelDuring done (stepB :: rest)
            (execute_step (env done.length) stepA state).1
            (execute_step (env done.length) stepA state).2.1)).1
        (execute_step (env (done.length + 1)) stepB
          (step_state_update (env done.length).cancelDuring done (stepB :: rest)
            (execute_step (env done.length) stepA state).1
            (execute_step (env done.length) stepA state).2.1)).2.1)
      (by rw [step_state_update_steps]; exact List.append_cons _ _ _)
    simp only [List.length_append, List.length_cons, List.length_nil, Nat.zero_add] at hp
    calc (run_steps env
          ((done ++ [(execute_step (env done.length) stepA state).1])
            ++ [(execute_step (env (done.length + 1)) stepB
                  (step_state_update (env done.length).cancelDuring done (stepB :: rest)
                    (execute_step (env done.length) stepA state).1
                    (execute_step (env done.length) stepA state).2.1)).1])
          rest
          (step_state_update (env (done.length + 1)).cancelDuring
            (done ++ [(execute_step (env done.length) stepA state).1]) rest
            (execute_step (env (done.length + 1)) stepB
              (step_state_update (env done.length).cancelDuring done (stepB :: rest)
                (execute_step (env done.length) stepA state).1
                (execute_step (env done.length) stepA state).2.1)).1
            (execute_step (env (done.length + 1)) stepB
              (step_state_update (env done.length).cancelDuring done (stepB :: rest)
                (execute_step (env done.length) stepA state).1
                (execute_step (env done.length) stepA state).2.1)).2.1)).1.plan.steps.take
            (done.length + 2)
        = (done ++ [(execute_step (env done.length) stepA state).1])
            ++ [(execute_step (env (done.length + 1)) stepB
                  (step_state_update (env done.length).cancelDuring done (stepB :: rest)
                    (execute_step (env done.length) stepA state).1
                    (execute_step (env done.length) stepA state).2.1)).1] := hp
      _ = done ++ [(execute_step (env done.length) stepA state).1,
            (execute_step (env (done.length + 1)) stepB
              (step_state_update (env done.length).cancelDuring done (stepB :: rest)
                (execute_step (env done.length) stepA state).1
                (execute_step (env done.length) stepA state).2.1)).1] := by
          simp
  · exact execute_step_status _ _ _

/-- First step of the C7 witness plan: a search step whose backend raises. -/
def c7StepA : ExecutionStep :=
  { step_id := "a", step_type := StepType.search, description := "", query := "q"
    sources := ["zai"], max_results := 10 }

/-- Second step of the C7 witness plan: a search step whose backend succeeds. -/
def c7StepB : ExecutionStep :=
  { step_id := "b", step_type := StepType.search, description := "", query := "q2"
    sources := ["zai"], max_results := 10 }

/-- C7 witness environment: the backend raises at step 0 and succeeds after. -/
def c7Env : Nat → StepEnv := fun i =>
  if i = 0 then { backend := Except.error "后端宕机" }
  else { backend := Except.ok { results := [mkRes "u"] } }

/-- C7 witness state: a running session over the two-step plan. -/
def c7State : ExecutionState :=
  { session_id := "s"
    request := { query := "q" }
    plan := { plan_id := "p", original_query := "q"
              strategy := PlanningStrategy.simple, steps := [c7StepA, c7StepB] }
    status := ExecutionStatus.running }

/-- C7 witness: on the concrete two-step plan the failing first step is marked
FAILED with its error recorded once, the engine returns False, and the second
step still gets executed and kept in the plan. -/
theorem C7_witness :
    (execute_step (c7Env 0) c7StepA c7State).1.status = ExecutionStatus.failed
    ∧ (execute_step (c7Env 0) c7StepA c7State).1.error = some ("步骤执行失败: " ++ "后端宕机")
    ∧ (execute_step (c7Env 0) c7StepA c7State).2.1.errors = ["步骤执行失败: " ++ "后端宕机"]
    ∧ (execute_step (c7Env 0) c7StepA c7State).2.2 = false
    ∧ (run_steps c7Env [] [c7StepA, c7StepB] c7State).1.plan.steps.take 2
        = [(execute_step (c7Env 0) c7StepA c7State).1,
           (execute_step (c7Env 1) c7StepB
             (step_state_update (c7Env 0).cancelDuring [] [c7StepB]
               (execute_step (c7Env 0) c7StepA c7State).1
               (execute_step (c7Env 0) c7StepA c7State).2.1)).1] := by
  have h := C7_failed_search_step c7Env [] [] c7StepA c7StepB c7State "后端宕机"
    rfl rfl rfl
    (by
      norm_num [should_continue_execution, is_timeout, reached_max_iterations,
        has_sufficient_results, has_critical_errors, lastThree, c7Env, c7State,
        c7StepA, c7StepB]
      simp +decide [List.filter_cons, List.filter_nil])
  exact ⟨h.1, h.2.1, h.2.2.1, h.2.2.2.1,
    (h.2.2.2.2.2.2 (by
      norm_num [should_continue_execution, is_timeout, reached_max_iterations,
        has_sufficient_results, has_critical_errors, lastThree, step_state_update,
        execute_step, execute_step_body, run_search_body, ExecutionState.add_error,
        c7Env, c7State, c7StepA, c7StepB]
      simp +decide [List.filter_cons, List.filter_nil])).1⟩

/-! ### Claim C1 — cancellation is not observed by the loop (code bug) -/

/-- A first concrete result with score 1. -/
def r1 : SearchResult := { title := "t1", url := "u1", snippet := "", score := 1 }

/-- A second concrete result with score 2. -/
def r2 : SearchResult := { title := "t2", url := "u2", snippet := "", score := 2 }

/-- First step of the C1 plan. -/
def c1Step0 : ExecutionStep :=
  { step_id := "s0", step_type := StepType.search, description := "", query := "test"
    sources := ["zai"], max_results := 10 }

/-- Second step of the C1 plan. -/
def c1Step1 : ExecutionStep :=
  { step_id := "s1", step_type := StepType.search, description := "", query := "test"
    sources := ["zai"], max_results := 10 }

/-- C1 request with all defaults. -/
def c1Req : AgentSearchRequest := { query := "test" }

/-- C1 plan: two search steps. -/
def c1Plan : ExecutionPlan :=
  { plan_id := "p", original_query := "test", strategy := PlanningStrategy.simple
    steps := [c1Step0, c1Step1] }

/-- C1 environment: both backends succeed; cancel_search interleaves while
step 0 is executing. -/
def c1Env : ExecEnv :=
  { stepEnvs := fun i =>
      if i = 0 then { backend := Except.ok { results := [r1] }, cancelDuring := true }
      else { backend := Except.ok { results := [r2] } } }

/-- The state created by execute_plan right after the PENDING → RUNNING
assignments. -/
def c1InitState : ExecutionState :=
  { session_id := "sess", request := c1Req, plan := c1Plan
    status := ExecutionStatus.running, start_time := 0 }

/-- The state the loop holds at the shouldContinue check before step 1: step 0
executed and written back, and status CANCELLED by the interleaved
cancel_search. -/
def c1Mid : ExecutionState :=
  step_state_update (c1Env.stepEnvs 0).cancelDuring [] [c1Step1]
    (execute_step (c1Env.stepEnvs 0) c1Step0 c1InitState).1
    (execute_step (c1Env.stepEnvs 0) c1Step0 c1InitState).2.1

/-- C1 (code bug): cancelling a running session mid-plan does not stop the
loop.  The mid-plan state has status CANCELLED, yet should_continue_execution
— which never reads state.status — answers (true, 继续执行); the run passes
exactly through that state; the remaining step is executed; execute_plan then
overwrites the status with COMPLETED, so the final status is COMPLETED, not
CANCELLED (the completed steps do keep their results, and the status log shows
the CANCELLED assignment being superseded). -/
theorem C1_cancel_not_effective :
    c1Mid.status = ExecutionStatus.cancelled
    ∧ should_continue_execution (c1Env.stepEnvs 1).now c1Mid = (true, "继续执行")
    ∧ (run_steps c1Env.stepEnvs [] [c1Step0, c1Step1] c1InitState).1
        = (run_steps c1Env.stepEnvs [(execute_step (c1Env.stepEnvs 0) c1Step0 c1InitState).1]
            [c1Step1] c1Mid).1
    ∧ (execute_plan c1Env c1Req c1Plan "sess" 0 "final").1.status = ExecutionStatus.completed
    ∧ ((execute_plan c1Env c1Req c1Plan "sess" 0 "final").1.plan.steps.map (fun s => s.status))
        = [ExecutionStatus.completed, ExecutionStatus.completed]
    ∧ ((execute_plan c1Env c1Req c1Plan "sess" 0 "final").1.plan.steps.map (fun s => s.results))
        = [[r1], [r2]]
    ∧ (execute_plan c1Env c1Req c1Plan "sess" 0 "final").2
        = [ExecutionStatus.pending, ExecutionStatus.running,
           ExecutionStatus.cancelled, ExecutionStatus.completed] := by
  refine ⟨rfl, ?_, ?_, ?_, ?_, ?_, ?_⟩
  · norm_num [should_continue_execution, is_timeout, reached_max_iterations,
      has_sufficient_results, has_critical_errors, lastThree, step_state_update,
      execute_step, execute_step_body, run_search_body, c1Env, c1Req, c1Plan,
      c1Step0, c1Step1, c1InitState, c1Mid, r1, r2]
    simp +decide [List.filter_cons, List.filter_nil]
  · exact run_steps_cons_fst c1Env.stepEnvs [] [c1Step1] c1Step0 c1InitState
      (by
        norm_num [should_continue_execution, is_timeout, reached_max_iterations,
          has_sufficient_results, has_critical_errors, lastThree, c1Env, c1Req,
          c1Plan, c1Step0, c1Step1, c1InitState]
        simp +decide [List.filter_cons, List.filter_nil])
  · norm_num [execute_plan, run_steps, finalize_execution, execute_step,
      execute_step_body, run_search_body, run_summarize_body, step_state_update,
      should_continue_execution, is_timeout, reached_max_iterations,
      has_sufficient_results, has_critical_errors, lastThree,
      deduplicate_and_sort_results, deduplicate_by_url, dedupGo,
      sort_by_score_desc, insert_by_score, ExecutionState.add_error,
      ExecutionState.completeWith, c1Env, c1Req, c1Plan, c1Step0, c1Step1, r1, r2,
      List.filter_cons, List.filter_nil]
    simp +decide
  · norm_num [execute_plan, run_steps, finalize_execution, execute_step,
      execute_step_body, run_search_body, run_summarize_body, step_state_update,
      should_continue_execution, is_timeout, reached_max_iterations,
      has_sufficient_results, has_critical_errors, lastThree,
      deduplicate_and_sort_results, deduplicate_by_url, dedupGo,
      sort_by_score_desc, insert_by_score, ExecutionState.add_error,
      ExecutionState.completeWith, c1Env, c1Req, c1Plan, c1Step0, c1Step1, r1, r2,
      List.filter_cons, List.filter_nil]
    simp +decide
  · norm_num [execute_plan, run_steps, finalize_execution, execute_step,
      execute_step_body, run_search_body, run_summarize_body, step_state_update,
      should_continue_execution, is_timeout, reached_max_iterations,
      has_sufficient_results, has_critical_errors, lastThree,
      deduplicate_and_sort_results, deduplicate_by_url, dedupGo,
      sort_by_score_desc, insert_by_score, ExecutionState.add_error,
      ExecutionState.completeWith, c1Env, c1Req, c1Plan, c1Step0, c1Step1, r1, r2,
      List.filter_cons, List.filter_nil]
    simp +decide
  · norm_num [execute_plan, run_steps, finalize_execution, execute_step,
      execute_step_body, run_search_body, run_summarize_body, step_state_update,
      should_continue_execution, is_timeout, reached_max_iterations,
      has_sufficient_results, has_critical_errors, lastThree,
      deduplicate_and_sort_results, deduplicate_by_url, dedupGo,
      sort_by_score_desc, insert_by_score, ExecutionState.add_error,
      ExecutionState.completeWith, c1Env, c1Req, c1Plan, c1Step0, c1Step1, r1, r2,
      List.filter_cons, List.filter_nil]
    simp +decide

/-! ### Claim C2 — terminal statuses are never followed by pending/running -/

/-- Every status the loop itself logs is a CANCELLED from an interleaved
cancel_search. -/
theorem run_steps_log_cancelled :
    ∀ (env : Nat → StepEnv) (rest done : List ExecutionStep) (state : ExecutionState)
      (s : ExecutionStatus), s ∈ (run_steps env done rest state).2 →
    s = ExecutionStatus.cancelled := by
  intro env rest
  induction rest with
  | nil =>
    intro done state s hs
    simp [run_steps] at hs
  | cons step rest ih =>
    intro done state s hs
    simp only [run_steps] at hs
    by_cases hc : (should_continue_execution (env done.length).now state).1 = true
    · rw [if_pos hc] at hs
      by_cases hd : (env done.length).cancelDuring = true
      · rw [if_pos hd] at hs
        rcases List.mem_cons.mp hs with h | h
        · exact h
        · exact ih _ _ s h
      · rw [if_neg hd] at hs
        exact ih _ _ s hs
    · rw [if_neg hc] at hs
      simp at hs

/-- The status log of a whole run starts PENDING, RUNNING and afterwards
contains only terminal statuses. -/
theorem status_trace_shape :
    ∀ (env : ExecEnv) (req : AgentSearchRequest) (plan : ExecutionPlan)
      (sid : String) (t0 : ℚ) (fid : String) (k : Nat),
    ∃ tail, status_trace env req plan sid t0 fid k
        = ExecutionStatus.pending :: ExecutionStatus.running :: tail
      ∧ ∀ s ∈ tail, s.isTerminal = true := by
  intro env req plan sid t0 fid k
  unfold status_trace execute_plan
  cases hu : env.unexpectedError with
  | some e =>
    refine ⟨((run_steps env.stepEnvs [] plan.steps
        { session_id := sid, request := req, plan := plan
          status := ExecutionStatus.running, start_time := t0 }).2
        ++ [ExecutionStatus.failed]) ++ List.replicate k ExecutionStatus.cancelled,
      by simp, ?_⟩
    intro s hs
    rcases List.mem_append.mp hs with h | h
    · rcases List.mem_append.mp h with h2 | h2
      · rw [run_steps_log_cancelled env.stepEnvs plan.steps [] _ s h2]
        rfl
      · rw [List.mem_singleton.mp h2]
        rfl
    · rw [List.eq_of_mem_replicate h]
      rfl
  | none =>
    by_cases hcf : env.cancelDuringFinalize = true
    · refine ⟨((run_steps env.stepEnvs [] plan.steps
          { session_id := sid, request := req, plan := plan
            status := ExecutionStatus.running, start_time := t0 }).2
          ++ ([ExecutionStatus.cancelled] ++ [ExecutionStatus.completed]))
          ++ List.replicate k ExecutionStatus.cancelled,
        by simp [hcf], ?_⟩
      intro s hs
      rcases List.mem_append.mp hs with h | h
      · rcases List.mem_append.mp h with h2 | h2
        · rw [run_steps_log_cancelled env.stepEnvs plan.steps [] _ s h2]
          rfl
        · rcases List.mem_append.mp h2 with h3 | h3
          · rw [List.mem_singleton.mp h3]
            rfl
          · rw [List.mem_singleton.mp h3]
            rfl
      · rw [List.eq_of_mem_replicate h]
        rfl
    · refine ⟨((run_steps env.stepEnvs [] plan.steps
          { session_id := sid, request := req, plan := plan
            status := ExecutionStatus.running, start_time := t0 }).2
          ++ ([] ++ [ExecutionStatus.completed]))
          ++ List.replicate k ExecutionStatus.cancelled,
        by simp [hcf], ?_⟩
      intro s hs
      rcases List.mem_append.mp hs with h | h
      · rcases List.mem_append.mp h with h2 | h2
        · rw [run_steps_log_cancelled env.stepEnvs plan.steps [] _ s h2]
          rfl
        · have hsc : s = ExecutionStatus.completed := by simpa using h2
          rw [hsc]
          rfl
      · rw [List.eq_of_mem_replicate h]
        rfl

/-- C2: over the full status log of a session — all the assignments execute_plan
makes (PENDING at creation, RUNNING, any interleaved cancellations, the final
COMPLETED or FAILED) plus any cancel_search calls arriving after the run —
once a terminal status (completed, failed, cancelled) is observed, every later
observation is also terminal: the status never returns to pending or running. -/
theorem C2_terminal_status_stays :
    ∀ (env : ExecEnv) (req : AgentSearchRequest) (plan : ExecutionPlan)
      (sid : String) (t0 : ℚ) (fid : String) (k : Nat) (i j : Nat)
      (si sj : ExecutionStatus),
    i ≤ j →
    (status_trace env req plan sid t0 fid k).get? i = some si →
    (status_trace env req plan sid t0 fid k).get? j = some sj →
    si.isTerminal = true → sj.isTerminal = true := by
  intro env req plan sid t0 fid k i j si sj hij hi hj hterm
  obtain ⟨tail, htr, htail⟩ := status_trace_shape env req plan sid t0 fid k
  rcases i with _ | _ | m
  · rw [htr] at hi
    simp only [List.get?_cons_zero, Option.some.injEq] at hi
    rw [← hi] at hterm
    exact absurd hterm (by decide)
  · rw [htr] at hi
    simp only [List.get?_cons_succ, List.get?_cons_zero, Option.some.injEq] at hi
    rw [← hi] at hterm
    exact absurd hterm (by decide)
  · obtain ⟨n, rfl⟩ : ∃ n, j = n + 2 := ⟨j - 2, by omega⟩
    rw [htr] at hj
    simp only [List.get?_cons_succ] at hj
    exact htail sj (List.get?_mem hj)

/-- Empty plan used by the C2 witness. -/
def c2Plan : ExecutionPlan :=
  { plan_id := "p", original_query := "q"
    strategy := PlanningStrategy.simple, steps := [] }

/-- Benign environment used by the C2 witness. -/
def c2Env : ExecEnv := { stepEnvs := fun _ => {} }

/-- C2 witness: on a concrete run followed by one late cancel_search the trace
is [pending, running, completed, cancelled]; the theorem applied at positions
2 ≤ 3 confirms the status after the terminal COMPLETED stays terminal. -/
theorem C2_witness :
    (status_trace c2Env c1Req c2Plan "s" 0 "f" 1).get? 2 = some ExecutionStatus.completed
    ∧ (status_trace c2Env c1Req c2Plan "s" 0 "f" 1).get? 3 = some ExecutionStatus.cancelled
    ∧ ExecutionStatus.cancelled.isTerminal = true := by
  have h2 : (status_trace c2Env c1Req c2Plan "s" 0 "f" 1).get? 2
      = some ExecutionStatus.completed := rfl
  have h3 : (status_trace c2Env c1Req c2Plan "s" 0 "f" 1).get? 3
      = some ExecutionStatus.cancelled := rfl
  exact ⟨h2, h3,
    C2_terminal_status_stays c2Env c1Req c2Plan "s" 0 "f" 1 2 3
      ExecutionStatus.completed ExecutionStatus.cancelled (by omega) h2 h3 (by decide)⟩

end EWebSearch
